import Mathlib

set_option maxRecDepth 16000

/-!
Formal model of the NoteSmith note-refiner plugin (src/main.ts, the
`useOllama`-capable revision).  The model covers the configuration record,
the prompt construction performed inside `refineNote`, the two completion
clients `callOpenAI` and `callMistral` (request construction, response-field
extraction with JavaScript optional chaining and truthiness, error paths),
and the orchestration of one refine operation (read, call, write, notices,
loading-modal lifecycle).  The network, the vault and the JSON parser are
abstracted as an environment value describing the outcome of each external
step; everything the plugin itself computes is modelled directly.
-/

/-- JavaScript whitespace test used by `String.prototype.trim`, restricted to
the ASCII whitespace characters (space, tab, line feed, carriage return);
the exotic Unicode whitespace code points never occur in the settings this
plugin manipulates. -/
def jsWhitespace (c : Char) : Bool :=
  c == ' ' || c == '\t' || c == '\n' || c == '\r'

/-- Model of JavaScript `String.prototype.trim`: drop leading and trailing
whitespace. -/
def jsTrim (s : String) : String :=
  String.mk (((s.data.dropWhile jsWhitespace).reverse.dropWhile jsWhitespace).reverse)

/-- The `RefinerSettings` record of src/main.ts. -/
structure RefinerSettings where
  apiKey : String
  model : String
  apiUrl : String
  tags : String
  additionalInstructions : String
  useOllama : Bool

/-- The `DEFAULT_SETTINGS` constant of src/main.ts. -/
def DEFAULT_SETTINGS : RefinerSettings :=
  { apiKey := ""
  , model := "gpt-4o"
  , apiUrl := "https://api.openai.com/v1/chat/completions"
  , tags := ""
  , additionalInstructions := ""
  , useOllama := false }

/-- JSON values, as produced by `res.json()`.  Numbers are represented
exactly as rationals; the plugin only ever constructs the literals 0.3 and
512 and never computes with them. -/
inductive Json where
  | null : Json
  | bool (b : Bool) : Json
  | num (q : Rat) : Json
  | str (s : String) : Json
  | arr (elems : List Json) : Json
  | obj (fields : List (String × Json)) : Json

/-- Field lookup in a JSON object (objects are represented with unique
keys, so first match suffices). -/
def findField (fields : List (String × Json)) (k : String) : Option Json :=
  match fields with
  | [] => none
  | (k2, v) :: rest => if k2 == k then some v else findField rest k

/-- JavaScript truthiness of a JSON value. -/
def truthyJson : Json → Bool
  | Json.null => false
  | Json.bool b => b
  | Json.num q => if q = 0 then false else true
  | Json.str s => s != ""
  | Json.arr _ => true
  | Json.obj _ => true

/-- A JavaScript value during property navigation: either `undefined` or a
JSON value. -/
inductive JsVal where
  | undef : JsVal
  | json (j : Json) : JsVal

/-- The values on which optional chaining short-circuits
(`undefined` and `null`). -/
def nullish : JsVal → Bool
  | JsVal.undef => true
  | JsVal.json Json.null => true
  | _ => false

/-- Plain (unguarded) property access `v.k`: it throws a TypeError on
`undefined` and `null`, reads the field of an object (absent fields give
`undefined`), and gives `undefined` on the remaining primitives, which have
no such own property. -/
def getProp : JsVal → String → Except Unit JsVal
  | JsVal.undef, _ => Except.error ()
  | JsVal.json Json.null, _ => Except.error ()
  | JsVal.json (Json.obj fields), k =>
      Except.ok (match findField fields k with
        | some v => JsVal.json v
        | none => JsVal.undef)
  | JsVal.json _, _ => Except.ok JsVal.undef

/-- Property access on a receiver already guarded non-nullish by `?.`
(so it cannot throw). -/
def propAccess : JsVal → String → JsVal
  | JsVal.json (Json.obj fields), k =>
      (match findField fields k with
        | some v => JsVal.json v
        | none => JsVal.undef)
  | _, _ => JsVal.undef

/-- Index access `v[i]` on a receiver guarded non-nullish: array element,
single-character string for string receivers, numeric-key field for
objects, `undefined` otherwise. -/
def indexVal : JsVal → Nat → JsVal
  | JsVal.json (Json.arr elems), i =>
      (match elems[i]? with
        | some v => JsVal.json v
        | none => JsVal.undef)
  | JsVal.json (Json.str s), i =>
      (match s.data[i]? with
        | some c => JsVal.json (Json.str (String.mk [c]))
        | none => JsVal.undef)
  | JsVal.json (Json.obj fields), i =>
      (match findField fields (Nat.repr i) with
        | some v => JsVal.json v
        | none => JsVal.undef)
  | _, _ => JsVal.undef

/-- The JavaScript expression `v || null`, as an `Option` (both `null`
results collapse to `none`): a falsy `v` gives `null`. -/
def orNull : JsVal → Option Json
  | JsVal.undef => none
  | JsVal.json j => if truthyJson j then some j else none

/-- The extraction chain `json.choices?.[0]?.message?.content` of
`callOpenAI`.  Only the first access is unguarded, so only a `null`
top-level value can throw; each `?.` short-circuits the rest of the chain
on a nullish intermediate value. -/
def chainOpenAI (j : Json) : Except Unit JsVal :=
  match getProp (JsVal.json j) "choices" with
  | Except.error e => Except.error e
  | Except.ok choicesVal =>
    if nullish choicesVal then Except.ok JsVal.undef
    else
      let first := indexVal choicesVal 0
      if nullish first then Except.ok JsVal.undef
      else
        let message := propAccess first "message"
        if nullish message then Except.ok JsVal.undef
        else Except.ok (propAccess message "content")

/-- The extraction expression `json.response` of `callMistral` (plain,
unguarded access). -/
def chainMistral (j : Json) : Except Unit JsVal :=
  getProp (JsVal.json j) "response"

/-- The fetch `Response.ok` predicate: status in the range 200-299. -/
def respOk (status : Nat) : Bool :=
  decide (200 ≤ status) && decide (status < 300)

/-- Errors that can be thrown inside the completion clients: the `Error`
constructed at the non-2xx branch (carrying exactly the pieces interpolated
into its message), and any host-produced fault (fetch rejection, JSON parse
failure, vault fault). -/
inductive JsError where
  | apiError (status : Nat) (statusText : String) (bodyText : String) : JsError
  | hostError : JsError

/-- The message of the thrown API error, exactly as the source interpolates
it. -/
def apiErrorMessage (status : Nat) (statusText bodyText : String) : String :=
  "API Error: " ++ Nat.repr status ++ " " ++ statusText ++ " - " ++ bodyText

/-- Outcome of one `fetch` round trip, as the completion clients observe it:
either the promise rejects (network failure), or a response arrives with a
status, a status text, the body read as text, and the result of parsing the
body as JSON (`none` when `res.json()` would throw). -/
inductive FetchOutcome where
  | netError : FetchOutcome
  | response (status : Nat) (statusText : String) (bodyText : String)
      (parsed : Option Json) : FetchOutcome

/-- Response handling of `callOpenAI`: non-2xx throws the API error (caught
by the function's own catch, which logs it and returns `null`); a 2xx
response is parsed and the content field extracted, with `|| null`
collapsing falsy values.  The first component is the returned value, the
second the error logged by the catch block, if any. -/
def handleOpenAI (fo : FetchOutcome) : Option Json × Option JsError :=
  match fo with
  | FetchOutcome.netError => (none, some JsError.hostError)
  | FetchOutcome.response status statusText bodyText parsed =>
    if respOk status then
      match parsed with
      | none => (none, some JsError.hostError)
      | some j =>
        match chainOpenAI j with
        | Except.error _ => (none, some JsError.hostError)
        | Except.ok v => (orNull v, none)
    else (none, some (JsError.apiError status statusText bodyText))

/-- Response handling of `callMistral`, identical except for the extraction
expression `json.response`. -/
def handleMistral (fo : FetchOutcome) : Option Json × Option JsError :=
  match fo with
  | FetchOutcome.netError => (none, some JsError.hostError)
  | FetchOutcome.response status statusText bodyText parsed =>
    if respOk status then
      match parsed with
      | none => (none, some JsError.hostError)
      | some j =>
        match chainMistral j with
        | Except.error _ => (none, some JsError.hostError)
        | Except.ok v => (orNull v, none)
    else (none, some (JsError.apiError status statusText bodyText))

/-- An outbound HTTP request, before serialization. -/
structure HttpRequest where
  url : String
  method : String
  headers : List (String × String)
  body : Json

/-- The request constructed by `callOpenAI`. -/
def openAIRequest (s : RefinerSettings) (content : String) : HttpRequest :=
  { url := s.apiUrl
  , method := "POST"
  , headers := [("Content-Type", "application/json"),
                ("Authorization", "Bearer " ++ s.apiKey)]
  , body := Json.obj
      [("model", Json.str s.model),
       ("messages", Json.arr [Json.obj [("role", Json.str "user"),
                                        ("content", Json.str content)]]),
       ("temperature", Json.num (3 / 10))] }

/-- The request constructed by `callMistral` (no authorization header,
extra `max_tokens` field). -/
def mistralRequest (s : RefinerSettings) (prompt : String) : HttpRequest :=
  { url := s.apiUrl
  , method := "POST"
  , headers := [("Content-Type", "application/json")]
  , body := Json.obj
      [("model", Json.str s.model),
       ("messages", Json.arr [Json.obj [("role", Json.str "user"),
                                        ("content", Json.str prompt)]]),
       ("max_tokens", Json.num 512),
       ("temperature", Json.num (3 / 10))] }

/-- `callOpenAI` of src/main.ts: the issued request paired with the handled
result (returned value, logged error). -/
def callOpenAI (s : RefinerSettings) (content : String) (fo : FetchOutcome) :
    HttpRequest × (Option Json × Option JsError) :=
  (openAIRequest s content, handleOpenAI fo)

/-- `callMistral` of src/main.ts. -/
def callMistral (s : RefinerSettings) (prompt : String) (fo : FetchOutcome) :
    HttpRequest × (Option Json × Option JsError) :=
  (mistralRequest s prompt, handleMistral fo)

/-- The fixed base instruction block of `refineNote`, verbatim. -/
def baseInstructions : String :=
  "You are a helpful assistant that formats and improves Markdown notes for use in Obsidian.\n\nClean up the following note by:\n- Fixing grammar, punctuation, and inconsistent structure\n- Making the content easier to read and logically organized\n- Applying proper Obsidian Markdown formatting:\n  - Use `#`, `##`, `###`, `####` for headings\n  - Format lists using `-` or `1.` consistently\n  - Convert any tasks into `[ ]` or `[x]` checkboxes\n  - Preserve and reformat code blocks, blockquotes, and inline formatting\n  - Don\x27t wrap the whole response in a code block\n  - Avoid `---` at the top (it breaks Obsidian rendering)\n\nKeep all important content, but reword or reformat for clarity where helpful."

/-- The tag clause with the interpolated tag list, verbatim from the
template literal in `refineNote`. -/
def tagClause (t : String) : String :=
  "If any content fits the following tags, add them where appropriate (e.g. headers, checklists). Doesn\x27t just have to be for headers, can be at any point in the document: " ++ t

/-- `tagInstruction` of `refineNote`: the clause when the trimmed tags are
non-empty (note the clause interpolates the untrimmed field), empty
otherwise. -/
def tagInstruction (s : RefinerSettings) : String :=
  if jsTrim s.tags ≠ "" then tagClause s.tags else ""

/-- The tag segment of the prompt template:
the interpolation of the conditional on line 337. -/
def tagSegment (s : RefinerSettings) : String :=
  if tagInstruction s ≠ "" then "\n- " ++ tagInstruction s else ""

/-- The additional-instructions segment of the prompt template: guarded by
JavaScript truthiness of the untrimmed field (line 338). -/
def extraSegment (s : RefinerSettings) : String :=
  if s.additionalInstructions ≠ "" then
    "\n\nAdditional Instructions:\n" ++ s.additionalInstructions
  else ""

/-- The prompt assembled in `refineNote` (lines 336-339): the template
literal concatenates the base block, a literal newline, the tag segment, a
literal newline, the extra segment, a literal newline and then the escape
sequence for two newlines, the note marker and the body. -/
def buildPrompt (s : RefinerSettings) (body : String) : String :=
  baseInstructions ++ "\n" ++ tagSegment s ++ "\n" ++ extraSegment s
    ++ "\n\n\n### Note:\n" ++ body

/-- The host-runtime string conversion applied when the completion result is
written through `vault.modify`.  It is exact on the values the claims are
about (strings); the remaining cases never carry weight below and are
represented conventionally (the declared TypeScript type is `string`). -/
def jsToString : Json → String
  | Json.str s => s
  | Json.bool b => cond b "true" "false"
  | Json.null => "null"
  | Json.num q => toString q
  | Json.arr _ => ""
  | Json.obj _ => "[object Object]"

/-- Environment of one refine operation: whether `vault.read` succeeds, the
outcome of the fetch, and whether `vault.modify` succeeds.  The external
store is atomic, so a failed modify leaves the document untouched. -/
structure RefineEnv where
  readOk : Bool
  fetch : FetchOutcome
  modifyOk : Bool

/-- Observable result of one refine operation: the final document body, the
notices shown, and the loading-modal lifecycle (opened at entry, open at
exit). -/
structure RefineResult where
  doc : String
  notices : List String
  spinnerOpened : Bool
  spinnerOpen : Bool

/-- The completion result reaching `refineNote`: dispatch on `useOllama`,
keeping only the returned value. -/
def completionOf (s : RefinerSettings) (prompt : String) (fo : FetchOutcome) :
    Option Json :=
  (if s.useOllama then callMistral s prompt fo else callOpenAI s prompt fo).2.1

/-- The try block of `refineNote`: read the document, build the prompt,
invoke the selected client, and on a truthy result write the file and show
the success notice, otherwise show the failure notice.  A read or write
fault throws. -/
def tryBlock (s : RefinerSettings) (env : RefineEnv) (name doc : String) :
    Except JsError (String × List String) :=
  if env.readOk then
    match completionOf s (buildPrompt s doc) env.fetch with
    | some j =>
        if env.modifyOk then
          Except.ok (jsToString j, ["Note refined: " ++ name])
        else Except.error JsError.hostError
    | none => Except.ok (doc, ["Failed to refine the note."])
  else Except.error JsError.hostError

/-- `refineNote` of src/main.ts: open the loading modal, run the try block,
convert any thrown fault into the generic error notice, and close the modal
in the finally clause on every path. -/
def refineNote (s : RefinerSettings) (env : RefineEnv) (name doc : String) :
    RefineResult :=
  match tryBlock s env name doc with
  | Except.ok (d, ns) =>
      { doc := d, notices := ns, spinnerOpened := true, spinnerOpen := false }
  | Except.error _ =>
      { doc := doc
      , notices := ["An error occurred while refining the note."]
      , spinnerOpened := true
      , spinnerOpen := false }

/-- Decidable prefix test on character lists. -/
def prefixChars : List Char → List Char → Bool
  | [], _ => true
  | _ :: _, [] => false
  | a :: as, b :: bs => a == b && prefixChars as bs

/-- Decidable substring search on character lists. -/
def containsChars (pat : List Char) : List Char → Bool
  | [] => prefixChars pat []
  | b :: bs => prefixChars pat (b :: bs) || containsChars pat bs

/-- Decidable substring test on strings. -/
def strContains (s pat : String) : Bool :=
  containsChars pat.data s.data

/- Helper lemmas -/

/-- Trimming the empty string gives the empty string. -/
theorem jsTrim_empty : jsTrim "" = "" := rfl

/-- The tag clause is never the empty string: it starts with a fixed
non-empty literal. -/
theorem tagClause_ne_empty (t : String) : tagClause t ≠ "" := by
  intro h
  have hlen : (tagClause t).length = 0 := by rw [h]; rfl
  rw [tagClause, String.length_append] at hlen
  have hpos : 0 < ("If any content fits the following tags, add them where appropriate (e.g. headers, checklists). Doesn\x27t just have to be for headers, can be at any point in the document: " : String).length := by decide
  omega

/-- A value surviving `|| null` is truthy. -/
theorem orNull_truthy {v : JsVal} {j : Json} (h : orNull v = some j) :
    truthyJson j = true := by
  cases v with
  | undef => simp [orNull] at h
  | json jj =>
      by_cases ht : truthyJson jj = true
      · rw [orNull, if_pos ht] at h
        cases h
        exact ht
      · have ht' : truthyJson jj = false := by
          revert ht; cases truthyJson jj <;> simp
        rw [orNull, if_neg (by simp [ht'])] at h
        cases h

/-- Any value returned by the standard-shape handler is truthy. -/
theorem handleOpenAI_result_truthy {fo : FetchOutcome} {j : Json}
    (h : (handleOpenAI fo).1 = some j) : truthyJson j = true := by
  cases fo with
  | netError => simp [handleOpenAI] at h
  | response st stx b parsed =>
      by_cases hok : respOk st = true
      · cases parsed with
        | none => simp [handleOpenAI, hok] at h
        | some jj =>
            cases hch : chainOpenAI jj with
            | error e => simp [handleOpenAI, hok, hch] at h
            | ok v =>
                simp [handleOpenAI, hok, hch] at h
                exact orNull_truthy h
      · have hok' : respOk st = false := by
          revert hok; cases respOk st <;> simp
        simp [handleOpenAI, hok'] at h

/-- Any value returned by the alternate-shape handler is truthy. -/
theorem handleMistral_result_truthy {fo : FetchOutcome} {j : Json}
    (h : (handleMistral fo).1 = some j) : truthyJson j = true := by
  cases fo with
  | netError => simp [handleMistral] at h
  | response st stx b parsed =>
      by_cases hok : respOk st = true
      · cases parsed with
        | none => simp [handleMistral, hok] at h
        | some jj =>
            cases hch : chainMistral jj with
            | error e => simp [handleMistral, hok, hch] at h
            | ok v =>
                simp [handleMistral, hok, hch] at h
                exact orNull_truthy h
      · have hok' : respOk st = false := by
          revert hok; cases respOk st <;> simp
        simp [handleMistral, hok'] at h

/- Concrete fixtures used by witnesses and counterexamples -/

/-- A standard-shape 2xx outcome whose first choice carries content "X". -/
def foStdX : FetchOutcome :=
  FetchOutcome.response 200 "OK" "raw"
    (some (Json.obj [("choices", Json.arr
      [Json.obj [("message", Json.obj [("content", Json.str "X")])]])]))

/-- An alternate-shape 2xx outcome with top-level response "Y". -/
def foAltY : FetchOutcome :=
  FetchOutcome.response 200 "OK" "raw"
    (some (Json.obj [("response", Json.str "Y")]))

/-- An environment where every external step succeeds and the completion
yields "X". -/
def envOkX : RefineEnv :=
  { readOk := true, fetch := foStdX, modifyOk := true }

/-- An environment whose fetch rejects. -/
def envNet : RefineEnv :=
  { readOk := true, fetch := FetchOutcome.netError, modifyOk := true }

/-- Settings with an ordinary (already trimmed) tag list. -/
def cfgTags : RefinerSettings :=
  { DEFAULT_SETTINGS with tags := "#todo, #idea" }

/-- Settings with ordinary additional instructions. -/
def cfgExtra : RefinerSettings :=
  { DEFAULT_SETTINGS with additionalInstructions := "Be brief." }

/-- Settings whose tag field carries a leading space. -/
def cfgTagWs : RefinerSettings :=
  { DEFAULT_SETTINGS with tags := " #todo" }

/-- Settings whose additional instructions are whitespace-only. -/
def cfgWsInstr : RefinerSettings :=
  { DEFAULT_SETTINGS with additionalInstructions := " " }

/- Claims about the prompt builder -/

/-- C2: the prompt is assembled in the fixed order base block, tag segment,
extra segment, note marker, body; and the document body appears verbatim
and unmodified as a contiguous suffix after a prefix that does not depend
on the body, whatever the body contains. -/
theorem buildPrompt_ordering (s : RefinerSettings) (body : String) :
    buildPrompt s body
        = baseInstructions ++ "\n" ++ tagSegment s ++ "\n" ++ extraSegment s
            ++ "\n\n\n### Note:\n" ++ body
  ∧ buildPrompt s body = buildPrompt s "" ++ body := by
  constructor
  · rfl
  · show _ = buildPrompt s "" ++ body
    rw [buildPrompt, buildPrompt, String.append_empty]

/-- C6 (amended): when the trimmed tag field is non-empty the prompt contains
the tag clause interpolating the stored tag string as-is (untrimmed); when
the trimmed tag field is empty the prompt is identical to the prompt of the
same configuration with the tag field cleared, so the builder inserts no
tag clause. -/
theorem buildPrompt_tags (s : RefinerSettings) (body : String) :
    (jsTrim s.tags ≠ "" →
        ∃ pre post, buildPrompt s body = pre ++ tagClause s.tags ++ post)
  ∧ (jsTrim s.tags = "" →
        buildPrompt s body = buildPrompt { s with tags := "" } body) := by
  constructor
  · intro h
    refine ⟨baseInstructions ++ "\n" ++ "\n- ",
            "\n" ++ extraSegment s ++ "\n\n\n### Note:\n" ++ body, ?_⟩
    have h1 : tagInstruction s = tagClause s.tags := by
      simp [tagInstruction, h]
    have h2 : tagSegment s = "\n- " ++ tagClause s.tags := by
      simp [tagSegment, h1, tagClause_ne_empty]
    simp only [buildPrompt, h2, String.append_assoc]
  · intro h
    have h2 : tagSegment s = "" := by
      simp [tagSegment, tagInstruction, h]
    have h3 : tagSegment { s with tags := "" } = "" := by
      simp [tagSegment, tagInstruction, jsTrim_empty]
    simp [buildPrompt, h2, h3, extraSegment]

/-- C6 witness: the positive and negative parts at concrete configurations. -/
theorem buildPrompt_tags_witness :
    (∃ pre post, buildPrompt cfgTags "b" = pre ++ tagClause "#todo, #idea" ++ post)
  ∧ buildPrompt DEFAULT_SETTINGS "b"
      = buildPrompt { DEFAULT_SETTINGS with tags := "" } "b" :=
  ⟨(buildPrompt_tags cfgTags "b").1 (by decide),
   (buildPrompt_tags DEFAULT_SETTINGS "b").2 rfl⟩

/-- C6 counterexample: for a tag field with a leading space the trimmed tags
are the non-empty "#todo", yet the prompt does not contain the tag clause
referencing exactly that trimmed string (the clause interpolates the
untrimmed field). -/
theorem tags_trim_counterexample :
    jsTrim cfgTagWs.tags = "#todo"
  ∧ strContains (buildPrompt cfgTagWs "some note")
      (tagClause (jsTrim cfgTagWs.tags)) = false := by
  constructor
  · decide
  · decide

/-- C7 (amended): when the additional-instructions field is non-empty the
prompt contains that text verbatim under the additional-instructions
marker; when the field is the empty string the marker and clause are
entirely absent (the untrimmed field is tested, so a whitespace-only field
is inserted, not skipped). -/
theorem buildPrompt_extra (s : RefinerSettings) (body : String) :
    (s.additionalInstructions ≠ "" →
        ∃ pre post, buildPrompt s body
          = pre ++ ("\n\nAdditional Instructions:\n" ++ s.additionalInstructions)
              ++ post)
  ∧ (s.additionalInstructions = "" →
        buildPrompt s body
          = baseInstructions ++ "\n" ++ tagSegment s ++ "\n"
              ++ "\n\n\n### Note:\n" ++ body) := by
  constructor
  · intro h
    refine ⟨baseInstructions ++ "\n" ++ tagSegment s ++ "\n",
            "\n\n\n### Note:\n" ++ body, ?_⟩
    have h2 : extraSegment s
        = "\n\nAdditional Instructions:\n" ++ s.additionalInstructions := by
      simp [extraSegment, h]
    simp only [buildPrompt, h2, String.append_assoc]
  · intro h
    have h2 : extraSegment s = "" := by
      simp [extraSegment, h]
    simp only [buildPrompt, h2, String.append_assoc, String.empty_append]

/-- C7 witness: the positive and negative parts at concrete configurations. -/
theorem buildPrompt_extra_witness :
    (∃ pre post, buildPrompt cfgExtra "b"
        = pre ++ ("\n\nAdditional Instructions:\n" ++ "Be brief.") ++ post)
  ∧ buildPrompt DEFAULT_SETTINGS "b"
      = baseInstructions ++ "\n" ++ tagSegment DEFAULT_SETTINGS ++ "\n"
          ++ "\n\n\n### Note:\n" ++ "b" :=
  ⟨(buildPrompt_extra cfgExtra "b").1 (by decide),
   (buildPrompt_extra DEFAULT_SETTINGS "b").2 rfl⟩

/-- C7 counterexample: a whitespace-only additional-instructions field is
empty after trimming, yet the additional-instructions marker appears in the
prompt, because the source tests the untrimmed field for truthiness. -/
theorem extra_marker_counterexample :
    jsTrim cfgWsInstr.additionalInstructions = ""
  ∧ cfgWsInstr.additionalInstructions ≠ ""
  ∧ strContains (buildPrompt cfgWsInstr "some note")
      "Additional Instructions:" = true := by
  refine ⟨rfl, by decide, by decide⟩

/- Claims about the completion clients -/

/-- C3 (amended): the standard shape posts to the configured endpoint with
the bearer authorization header and the chat-completions JSON body; on a
2xx response the first choice's message content field is returned when it
is a truthy value (in particular any non-empty string), and an absent
`choices` field gives the null result with nothing thrown and nothing
logged.  A falsy content value (for example the empty string) is collapsed
to the null result by the `|| null` in the source. -/
theorem callOpenAI_standard_shape (s : RefinerSettings) (content : String)
    (st : Nat) (stx bodyText : String) (v : Json) (fields : List (String × Json))
    (hok : respOk st = true) :
    (callOpenAI s content (FetchOutcome.response st stx bodyText (some (Json.obj fields)))).1
      = { url := s.apiUrl
        , method := "POST"
        , headers := [("Content-Type", "application/json"),
                      ("Authorization", "Bearer " ++ s.apiKey)]
        , body := Json.obj
            [("model", Json.str s.model),
             ("messages", Json.arr [Json.obj [("role", Json.str "user"),
                                              ("content", Json.str content)]]),
             ("temperature", Json.num (3 / 10))] }
  ∧ (∀ rest, truthyJson v = true →
      (callOpenAI s content (FetchOutcome.response st stx bodyText
        (some (Json.obj [("choices",
          Json.arr (Json.obj [("message", Json.obj [("content", v)])] :: rest))])))).2
        = (some v, none))
  ∧ (findField fields "choices" = none →
      (callOpenAI s content (FetchOutcome.response st stx bodyText (some (Json.obj fields)))).2
        = (none, none)) := by
  refine ⟨rfl, ?_, ?_⟩
  · intro rest htr
    simp [callOpenAI, handleOpenAI, hok, chainOpenAI, getProp, findField,
          indexVal, propAccess, nullish, orNull, htr]
  · intro hf
    simp [callOpenAI, handleOpenAI, hok, chainOpenAI, getProp, hf, nullish,
          orNull]

/-- C3 witness: a 2xx response carrying content "X" yields "X", and a 2xx
response without a `choices` field yields the null result without a fault. -/
theorem callOpenAI_standard_shape_witness :
    (callOpenAI DEFAULT_SETTINGS "p" foStdX).2 = (some (Json.str "X"), none)
  ∧ (callOpenAI DEFAULT_SETTINGS "p"
      (FetchOutcome.response 200 "OK" "raw" (some (Json.obj [])))).2 = (none, none) :=
  ⟨(callOpenAI_standard_shape DEFAULT_SETTINGS "p" 200 "OK" "raw"
      (Json.str "X") [] rfl).2.1 [] rfl,
   (callOpenAI_standard_shape DEFAULT_SETTINGS "p" 200 "OK" "raw"
      (Json.str "X") [] rfl).2.2 rfl⟩

/-- C3 counterexample: a 2xx response whose first choice's message content
field is present but holds the empty string does not make `callOpenAI`
return that field; the result is the null result, contradicting the claim
that on a 2xx response the content field is returned and only absence is
failure. -/
theorem callOpenAI_empty_content_counterexample :
    (callOpenAI DEFAULT_SETTINGS "p" (FetchOutcome.response 200 "OK" "raw"
      (some (Json.obj [("choices", Json.arr
        [Json.obj [("message", Json.obj [("content", Json.str "")])]])])))).2.1
      = none
  ∧ chainOpenAI (Json.obj [("choices", Json.arr
      [Json.obj [("message", Json.obj [("content", Json.str "")])]])])
      = Except.ok (JsVal.json (Json.str "")) :=
  ⟨rfl, rfl⟩

/-- C4 (amended): the alternate shape posts to the configured endpoint with
no authorization header and the generate-style JSON body including
`max_tokens` 512; on a 2xx response the top-level `response` field is
returned when it is a truthy value (so for a body with response "Y" it
returns "Y"), and an absent `response` field gives the null result.  A
falsy field value (for example the empty string) is collapsed to the null
result by the `|| null` in the source. -/
theorem callMistral_alternate_shape (s : RefinerSettings) (content : String)
    (st : Nat) (stx bodyText : String) (v : Json) (fields : List (String × Json))
    (hok : respOk st = true) :
    (callMistral s content (FetchOutcome.response st stx bodyText (some (Json.obj fields)))).1
      = { url := s.apiUrl
        , method := "POST"
        , headers := [("Content-Type", "application/json")]
        , body := Json.obj
            [("model", Json.str s.model),
             ("messages", Json.arr [Json.obj [("role", Json.str "user"),
                                              ("content", Json.str content)]]),
             ("max_tokens", Json.num 512),
             ("temperature", Json.num (3 / 10))] }
  ∧ (findField fields "response" = some v → truthyJson v = true →
      (callMistral s content (FetchOutcome.response st stx bodyText (some (Json.obj fields)))).2
        = (some v, none))
  ∧ (findField fields "response" = none →
      (callMistral s content (FetchOutcome.response st stx bodyText (some (Json.obj fields)))).2
        = (none, none)) := by
  refine ⟨rfl, ?_, ?_⟩
  · intro hf htr
    simp [callMistral, handleMistral, hok, chainMistral, getProp, hf, orNull,
          htr]
  · intro hf
    simp [callMistral, handleMistral, hok, chainMistral, getProp, hf, orNull]

/-- C4 witness: the alternate-shape success response with top-level
response "Y" yields "Y". -/
theorem callMistral_alternate_shape_witness :
    (callMistral DEFAULT_SETTINGS "p" foAltY).2 = (some (Json.str "Y"), none) :=
  (callMistral_alternate_shape DEFAULT_SETTINGS "p" 200 "OK" "raw"
    (Json.str "Y") [("response", Json.str "Y")] rfl).2.1 rfl rfl

/-- C4 counterexample: a 2xx alternate-shape response whose top-level
`response` field is present but holds the empty string yields the null
result, not that field, contradicting the claim that only absence of the
field is treated as failure. -/
theorem callMistral_empty_response_counterexample :
    (callMistral DEFAULT_SETTINGS "p" (FetchOutcome.response 200 "OK" "raw"
      (some (Json.obj [("response", Json.str "")])))).2.1 = none
  ∧ findField [("response", Json.str "")] "response" = some (Json.str "") :=
  ⟨rfl, rfl⟩

/-- C5: in either provider shape, a non-2xx response makes the client read
the body as text and log the API error carrying the status code, the status
text and the body; the thrown error message embeds the body verbatim as a
suffix, and the client returns the null result. -/
theorem completion_api_status (s : RefinerSettings) (content : String)
    (st : Nat) (stx bodyText : String) (parsed : Option Json)
    (h : respOk st = false) :
    (callOpenAI s content (FetchOutcome.response st stx bodyText parsed)).2
      = (none, some (JsError.apiError st stx bodyText))
  ∧ (callMistral s content (FetchOutcome.response st stx bodyText parsed)).2
      = (none, some (JsError.apiError st stx bodyText))
  ∧ ∃ pre, apiErrorMessage st stx bodyText = pre ++ bodyText := by
  refine ⟨?_, ?_, ?_⟩
  · simp [callOpenAI, handleOpenAI, h]
  · simp [callMistral, handleMistral, h]
  · exact ⟨"API Error: " ++ Nat.repr st ++ " " ++ stx ++ " - ", by
      simp only [apiErrorMessage, String.append_assoc]⟩

/-- C5 witness: a 401 response with body "denied" is reported as the API
error carrying 401, its status text and the body verbatim, in both shapes. -/
theorem completion_api_status_witness :
    (callOpenAI DEFAULT_SETTINGS "p"
      (FetchOutcome.response 401 "Unauthorized" "denied" none)).2
      = (none, some (JsError.apiError 401 "Unauthorized" "denied"))
  ∧ (callMistral DEFAULT_SETTINGS "p"
      (FetchOutcome.response 401 "Unauthorized" "denied" none)).2
      = (none, some (JsError.apiError 401 "Unauthorized" "denied")) :=
  ⟨(completion_api_status DEFAULT_SETTINGS "p" 401 "Unauthorized" "denied" none rfl).1,
   (completion_api_status DEFAULT_SETTINGS "p" 401 "Unauthorized" "denied" none rfl).2.1⟩

/-- C8: in both shapes the returned value, when a string, is never the
empty string (any returned value is truthy), and a 2xx response whose
expected text field holds the empty string produces the null result, so
the caller treats it as a failure and never writes empty text. -/
theorem completion_result_nonempty (s : RefinerSettings) (content : String)
    (fo : FetchOutcome) :
    (∀ t, (callOpenAI s content fo).2.1 = some (Json.str t) → t ≠ "")
  ∧ (∀ t, (callMistral s content fo).2.1 = some (Json.str t) → t ≠ "")
  ∧ (callOpenAI s content (FetchOutcome.response 200 "OK" "raw"
      (some (Json.obj [("choices", Json.arr
        [Json.obj [("message", Json.obj [("content", Json.str "")])]])])))).2.1
      = none
  ∧ (callMistral s content (FetchOutcome.response 200 "OK" "raw"
      (some (Json.obj [("response", Json.str "")])))).2.1 = none := by
  refine ⟨?_, ?_, rfl, rfl⟩
  · intro t h
    have h' : (handleOpenAI fo).1 = some (Json.str t) := h
    have := handleOpenAI_result_truthy h'
    simpa [truthyJson] using this
  · intro t h
    have h' : (handleMistral fo).1 = some (Json.str t) := h
    have := handleMistral_result_truthy h'
    simpa [truthyJson] using this

/-- C8 witness: concrete non-empty results in both shapes. -/
theorem completion_result_nonempty_witness :
    ("X" : String) ≠ "" ∧ ("Y" : String) ≠ "" :=
  ⟨(completion_result_nonempty DEFAULT_SETTINGS "p" foStdX).1 "X" rfl,
   (completion_result_nonempty DEFAULT_SETTINGS "p" foAltY).2.1 "Y" rfl⟩

/- Claims about the refine orchestration -/

/-- C1: one refine operation is atomic with respect to the document: the
final body is either the original body byte for byte, or exactly the
written conversion of a returned completion value; whenever the completion
yields nothing the body is unchanged; and whenever the completion yields a
text value and the read and write both succeed, the body is exactly that
text.  There is no partial replacement. -/
theorem refineNote_atomic (s : RefinerSettings) (env : RefineEnv)
    (name doc : String) :
    ((refineNote s env name doc).doc = doc
      ∨ ∃ j, completionOf s (buildPrompt s doc) env.fetch = some j
           ∧ (refineNote s env name doc).doc = jsToString j)
  ∧ (completionOf s (buildPrompt s doc) env.fetch = none →
        (refineNote s env name doc).doc = doc)
  ∧ (∀ t, completionOf s (buildPrompt s doc) env.fetch = some (Json.str t) →
        env.readOk = true → env.modifyOk = true →
        (refineNote s env name doc).doc = t) := by
  cases hr : env.readOk with
  | false =>
      refine ⟨Or.inl ?_, fun _ => ?_, fun t hct hr2 _ => ?_⟩
      · simp [refineNote, tryBlock, hr]
      · simp [refineNote, tryBlock, hr]
      · cases hr2
  | true =>
      cases hc : completionOf s (buildPrompt s doc) env.fetch with
      | none =>
          refine ⟨Or.inl ?_, fun _ => ?_, fun t hct hr2 hm2 => ?_⟩
          · simp [refineNote, tryBlock, hr, hc]
          · simp [refineNote, tryBlock, hr, hc]
          · cases hct
      | some j =>
          cases hm : env.modifyOk with
          | false =>
              refine ⟨Or.inl ?_, fun hcn => ?_, fun t hct hr2 hm2 => ?_⟩
              · simp [refineNote, tryBlock, hr, hc, hm]
              · cases hcn
              · cases hm2
          | true =>
              refine ⟨Or.inr ⟨j, rfl, ?_⟩, fun hcn => ?_, fun t hct hr2 hm2 => ?_⟩
              · simp [refineNote, tryBlock, hr, hc, hm]
              · cases hcn
              · cases hct
                simp [refineNote, tryBlock, hr, hc, hm, jsToString]

/-- C1 witness: with every external step succeeding and a completion "X"
the document becomes "X"; with a rejected fetch the document is unchanged. -/
theorem refineNote_atomic_witness :
    (refineNote DEFAULT_SETTINGS envOkX "a.md" "old").doc = "X"
  ∧ (refineNote DEFAULT_SETTINGS envNet "a.md" "old").doc = "old" :=
  ⟨(refineNote_atomic DEFAULT_SETTINGS envOkX "a.md" "old").2.2 "X" rfl rfl rfl,
   (refineNote_atomic DEFAULT_SETTINGS envNet "a.md" "old").2.1 rfl⟩

/-- C9: every refine operation opens the loading modal on entry and, on
every exit path (success, failure notice, or caught fault), the finally
clause has closed it by the time the operation returns. -/
theorem refineNote_spinner (s : RefinerSettings) (env : RefineEnv)
    (name doc : String) :
    (refineNote s env name doc).spinnerOpened = true
  ∧ (refineNote s env name doc).spinnerOpen = false := by
  unfold refineNote
  cases tryBlock s env name doc with
  | ok p => cases p; exact ⟨rfl, rfl⟩
  | error e => exact ⟨rfl, rfl⟩

/-- C10: the refine operation is total over every modelled failure mode
(fetch rejection, non-2xx status, missing field, unparsable body, read
fault, write fault): it always returns normally with exactly one notice,
which is the success notice naming the file, the generic failure notice, or
the generic caught-error notice. -/
theorem refineNote_total_notices (s : RefinerSettings) (env : RefineEnv)
    (name doc : String) :
    ∃ n, (refineNote s env name doc).notices = [n]
      ∧ (n = "Note refined: " ++ name
         ∨ n = "Failed to refine the note."
         ∨ n = "An error occurred while refining the note.") := by
  cases hr : env.readOk with
  | false =>
      exact ⟨"An error occurred while refining the note.",
        by simp [refineNote, tryBlock, hr], Or.inr (Or.inr rfl)⟩
  | true =>
      cases hc : completionOf s (buildPrompt s doc) env.fetch with
      | none =>
          exact ⟨"Failed to refine the note.",
            by simp [refineNote, tryBlock, hr, hc], Or.inr (Or.inl rfl)⟩
      | some j =>
          cases hm : env.modifyOk with
          | false =>
              exact ⟨"An error occurred while refining the note.",
                by simp [refineNote, tryBlock, hr, hc, hm], Or.inr (Or.inr rfl)⟩
          | true =>
              exact ⟨"Note refined: " ++ name,
                by simp [refineNote, tryBlock, hr, hc, hm], Or.inl rfl⟩
